import Mathlib

/-!
Shallow embedding of the bosch-bme680 driver (Rust) for checking its
natural-language specification.  Definitions are translated from the
repository sources (src/src/bitfields.rs, src/src/config.rs,
src/src/data.rs, src/src/i2c_helper.rs, src/src/lib.rs,
src/src/async_impl.rs, src/src/async_impl/i2c_helper.rs).
Machine integers are modelled as Nat/Int with explicit wrap-around where
the Rust code can wrap; f32 arithmetic is modelled by exact rationals,
and where a claim depends on float special values, by an explicit
IEEE-754 special-value model with NaN, signed infinities and overflow
to infinity at the binary32 boundary.
-/

namespace Bme680

/-- Oversampling settings, from config.rs (enum Oversampling). -/
inductive Oversampling
  | Skipped
  | By1
  | By2
  | By4
  | By8
  | By16
deriving DecidableEq, Repr

/-- From<Oversampling> for u8 in config.rs. -/
def Oversampling.toU8 : Oversampling → Nat
  | .Skipped => 0
  | .By1 => 1
  | .By2 => 2
  | .By4 => 3
  | .By8 => 4
  | .By16 => 5

/-- Oversampling::cycles from config.rs. -/
def Oversampling.cycles : Oversampling → Nat
  | .Skipped => 0
  | .By1 => 1
  | .By2 => 2
  | .By4 => 4
  | .By8 => 8
  | .By16 => 16

/-- IIR filter coefficients, from config.rs (enum IIRFilter). -/
inductive IIRFilter
  | Coeff0
  | Coeff1
  | Coeff3
  | Coeff7
  | Coeff15
  | Coeff31
  | Coeff63
  | Coeff127
deriving DecidableEq, Repr

/-- From<IIRFilter> for u8 in config.rs. -/
def IIRFilter.toU8 : IIRFilter → Nat
  | .Coeff0 => 0
  | .Coeff1 => 1
  | .Coeff3 => 2
  | .Coeff7 => 3
  | .Coeff15 => 4
  | .Coeff31 => 5
  | .Coeff63 => 6
  | .Coeff127 => 7

/-- GasConfig from config.rs: heater duration (milliseconds of the stored
core::time::Duration) and heater target temperature in degrees C. -/
structure GasConfig where
  heater_duration_ms : Nat
  heater_target_temperature : Nat
deriving DecidableEq, Repr

/-- Configuration from config.rs: five independently optional fields. -/
structure Configuration where
  temperature_oversampling : Option Oversampling
  pressure_oversampling : Option Oversampling
  humidity_oversampling : Option Oversampling
  filter : Option IIRFilter
  gas_config : Option GasConfig
deriving DecidableEq, Repr

/-!
The 5-byte raw configuration block (RawConfig([u8; 5]) in bitfields.rs)
is modelled as a bit vectorial view: position p addresses byte p / 8,
bit p % 8, exactly as calc_position(bit, byte) = byte * 8 + bit does in
bitfields.rs.  Field positions from the bitfield! declaration:
  filter                    bits 34..36  (0x75 bits 4:2, byte 4)
  mode                      bits 24..25  (0x74 bits 1:0, byte 3)
  pressure_oversampling     bits 26..28  (0x74 bits 4:2, byte 3)
  temperature_oversampling  bits 29..31  (0x74 bits 7:5, byte 3)
  humidity_oversampling     bits  8..10  (0x72 bits 2:0, byte 1)
  heater_profile            bits  0..3   (0x71 bits 3:0, byte 0)
  run_gas                   bit   4      (0x71 bit 4,   byte 0)
-/
def Cfg : Type := Nat → Bool

/-- Masked field write of the bitfield crate: the bits lo..lo+w-1 are
replaced by the low w bits of v, every other bit is untouched. -/
def setField (c : Cfg) (lo w v : Nat) : Cfg :=
  fun p => if lo ≤ p ∧ p < lo + w then v.testBit (p - lo) else c p

/-- RawConfig::apply_config from bitfields.rs: each Some field overwrites
its own bits; a present gas config additionally forces run_gas on and
heater profile 0. -/
def applyConfig (config : Configuration) (c : Cfg) : Cfg :=
  let c1 := match config.temperature_oversampling with
    | some t => setField c 29 3 t.toU8
    | none => c
  let c2 := match config.pressure_oversampling with
    | some p => setField c1 26 3 p.toU8
    | none => c1
  let c3 := match config.humidity_oversampling with
    | some h => setField c2 8 3 h.toU8
    | none => c2
  let c4 := match config.filter with
    | some f => setField c3 34 3 f.toU8
    | none => c3
  match config.gas_config with
    | some _ => setField (setField c4 4 1 1) 0 4 0
    | none => c4

/-- Modelled from the spec: MAX_HEATER_WAIT_DURATION_MS lives in the
repository module constants.rs which is not under src/; section 4.2 of
the spec fixes the saturation threshold at 0xFFF milliseconds. -/
def MAX_HEATER_WAIT_DURATION_MS : Nat := 0xFFF

/-- The while loop of GasConfig::calc_gas_wait (config.rs): while
duration > 0x3F { duration /= 4; factor += 1 }. -/
def gasWaitLoop (duration factor : Nat) : Nat × Nat :=
  if h : 0x3F < duration then gasWaitLoop (duration / 4) (factor + 1)
  else (duration, factor)
termination_by duration
decreasing_by
  exact Nat.div_lt_self (Nat.lt_of_lt_of_le (by decide) (Nat.le_of_lt h)) (by decide)

/-- GasConfig::calc_gas_wait from config.rs.  The Rust code first
truncates the u128 millisecond count to u16 (as u16), saturates at
MAX_HEATER_WAIT_DURATION_MS, otherwise compresses to mantissa + factor
with u8 wrap-around on the final sum. -/
def calcGasWait (gc : GasConfig) : Nat :=
  let duration := gc.heater_duration_ms % 65536
  if MAX_HEATER_WAIT_DURATION_MS ≤ duration then 0xFF
  else
    let df := gasWaitLoop duration 0
    (df.1 % 256 + (df.2 * 64) % 256) % 256

/-- CalibrationData from data.rs (field types follow the Rust integer
types: unsigned ones as Nat, signed ones as Int). -/
structure CalibrationData where
  par_t1 : Nat
  par_t2 : Int
  par_t3 : Int
  par_p1 : Nat
  par_p2 : Int
  par_p3 : Int
  par_p4 : Int
  par_p5 : Int
  par_p6 : Int
  par_p7 : Int
  par_p8 : Int
  par_p9 : Int
  par_p10 : Nat
  par_h1 : Nat
  par_h2 : Nat
  par_h3 : Int
  par_h4 : Int
  par_h5 : Int
  par_h6 : Nat
  par_h7 : Int
  par_gh1 : Int
  par_gh2 : Int
  par_gh3 : Int
  res_heat_range : Nat
  res_heat_val : Int
  range_sw_err : Int
deriving DecidableEq, Repr

/-- Truncation toward zero, the rounding of a Rust float-to-integer cast
(Int.div truncates toward zero, the denominator of a Rat is positive). -/
def ratTrunc (q : ℚ) : Int := Int.tdiv q.num q.den

/-- Rust expression (x as i16) on a float: truncate toward zero and
saturate to the i16 range. -/
def ratAsI16 (q : ℚ) : Int := max (-32768) (min 32767 (ratTrunc q))

/-- Rust f32::clamp(lo, hi) on an ordered value: min (max x lo) hi. -/
def rustClamp (x lo hi : ℚ) : ℚ := min (max x lo) hi

/-- calculate_temperature from data.rs, f32 arithmetic modelled as exact
rationals; returns (temperature, t_fine). -/
def calculateTemperature (adc_temp : Nat) (cal : CalibrationData) : ℚ × ℚ :=
  let temp_adc : ℚ := adc_temp
  let var_1 := (temp_adc / 16384 - (cal.par_t1 : ℚ) / 1024) * (cal.par_t2 : ℚ)
  let var_2 := ((temp_adc / 131072 - (cal.par_t1 : ℚ) / 8192)
      * (temp_adc / 131072 - (cal.par_t1 : ℚ) / 8192)) * ((cal.par_t3 : ℚ) * 16)
  let t_fine := var_1 + var_2
  (t_fine / 5120, t_fine)

/-- The final value of var1 in calculate_pressure (data.rs), the divisor
guarded by the (var1 as i16 != 0) test. -/
def pressureVar1 (cal : CalibrationData) (t_fine : ℚ) : ℚ :=
  let var1 := t_fine / 2 - 64000
  let var1 := (((cal.par_p3 : ℚ) * var1 * var1) / 16384 + (cal.par_p2 : ℚ) * var1) / 524288
  (1 + var1 / 32768) * (cal.par_p1 : ℚ)

/-- calculate_pressure from data.rs, f32 arithmetic modelled as exact
rationals, with the division-guard branch of the source. -/
def calculatePressure (adc_press : Nat) (cal : CalibrationData) (t_fine : ℚ) : ℚ :=
  let adc_pressq : ℚ := adc_press
  let var1 := t_fine / 2 - 64000
  let var2 := var1 * var1 * ((cal.par_p6 : ℚ) / 131072)
  let var2 := var2 + var1 * (cal.par_p5 : ℚ) * 2
  let var2 := var2 / 4 + (cal.par_p4 : ℚ) * 65536
  let var1 := (((cal.par_p3 : ℚ) * var1 * var1) / 16384 + (cal.par_p2 : ℚ) * var1) / 524288
  let var1 := (1 + var1 / 32768) * (cal.par_p1 : ℚ)
  let calc_pres := 1048576 - adc_pressq
  if ratAsI16 var1 ≠ 0 then
    let calc_pres := ((calc_pres - var2 / 4096) * 6250) / var1
    let var1 := ((cal.par_p9 : ℚ) * calc_pres * calc_pres) / 2147483648
    let var2 := calc_pres * ((cal.par_p8 : ℚ) / 32768)
    let var3 := (calc_pres / 256) * (calc_pres / 256) * (calc_pres / 256)
        * ((cal.par_p10 : ℚ) / 131072)
    calc_pres + (var1 + var2 + var3 + (cal.par_p7 : ℚ) * 128) / 16
  else 0

/-- calculate_humidity from data.rs in the exact-arithmetic idealization
of f32 (no rounding, overflow or special values) that the measurement
decoding model below carries inside MeasurmentData; the range claim
about this function is settled over the IEEE special-value model
calculateHumidityF32 further down, not over this idealization. -/
def calculateHumidity (adc_hum : Nat) (cal : CalibrationData) (t_fine : ℚ) : ℚ :=
  let adc_humq : ℚ := adc_hum
  let temp_comp := t_fine / 5120
  let var1 := adc_humq
    - ((cal.par_h1 : ℚ) * 16 + ((cal.par_h3 : ℚ) / 2) * temp_comp)
  let var2 := var1 * (((cal.par_h2 : ℚ) / 262144)
    * (1 + ((cal.par_h4 : ℚ) / 16384) * temp_comp
        + ((cal.par_h5 : ℚ) / 1048576) * temp_comp * temp_comp))
  let var3 := (cal.par_h6 : ℚ) / 16384
  let var4 := (cal.par_h7 : ℚ) / 2097152
  let calc_hum := var2 + (var3 + var4 * temp_comp) * var2 * var2
  rustClamp calc_hum 0 100

/-!
IEEE-754 special-value model of f32 for the humidity range claim: a
float is NaN, a signed infinity, or an exact rational.  All NaN and
infinity propagation rules (NaN absorption, inf + -inf = NaN,
0 * inf = NaN, inf / inf = NaN, division of a nonzero finite value by
zero = signed infinity) follow IEEE-754, and a finite result whose exact
magnitude reaches 2 ^ 128 - 2 ^ 103 — the round-to-nearest overflow
boundary of binary32 — overflows to the signed infinity, exactly as the
hardware does.  Finite results below the boundary are kept as exact
rationals (rounding, underflow and the sign of zero are not modelled;
none of them can move a value across the NaN / infinity / finite
classification used here, and the range theorem below depends only on
the final clamp's case analysis over that classification).
-/
inductive F32
  | nan
  | inf (neg : Bool)
  | fin (q : ℚ)
deriving DecidableEq, Repr

/-- Exact magnitudes at or above this bound round to infinity in
binary32 (round to nearest even): 2 ^ 128 - 2 ^ 103. -/
def f32OverflowThreshold : ℚ := 2 ^ 128 - 2 ^ 103

/-- Classify an exact arithmetic result: overflow to the signed
infinity at the binary32 boundary, otherwise keep it finite. -/
def fOverflow (q : ℚ) : F32 :=
  if f32OverflowThreshold ≤ q then F32.inf false
  else if q ≤ -f32OverflowThreshold then F32.inf true
  else F32.fin q

/-- IEEE f32 addition in the special-value model. -/
def fAdd : F32 → F32 → F32
  | F32.nan, _ => F32.nan
  | _, F32.nan => F32.nan
  | F32.inf s1, F32.inf s2 => if s1 = s2 then F32.inf s1 else F32.nan
  | F32.inf s, F32.fin _ => F32.inf s
  | F32.fin _, F32.inf s => F32.inf s
  | F32.fin a, F32.fin b => fOverflow (a + b)

/-- IEEE f32 subtraction in the special-value model. -/
def fSub : F32 → F32 → F32
  | F32.nan, _ => F32.nan
  | _, F32.nan => F32.nan
  | F32.inf s1, F32.inf s2 => if s1 = s2 then F32.nan else F32.inf s1
  | F32.inf s, F32.fin _ => F32.inf s
  | F32.fin _, F32.inf s => F32.inf (!s)
  | F32.fin a, F32.fin b => fOverflow (a - b)

/-- IEEE f32 multiplication in the special-value model (0 * inf = NaN). -/
def fMul : F32 → F32 → F32
  | F32.nan, _ => F32.nan
  | _, F32.nan => F32.nan
  | F32.inf s1, F32.inf s2 => F32.inf (xor s1 s2)
  | F32.inf s, F32.fin b => if b = 0 then F32.nan else F32.inf (xor s (decide (b < 0)))
  | F32.fin a, F32.inf s => if a = 0 then F32.nan else F32.inf (xor s (decide (a < 0)))
  | F32.fin a, F32.fin b => fOverflow (a * b)

/-- IEEE f32 division in the special-value model (inf / inf = NaN,
0 / 0 = NaN, nonzero / 0 = signed infinity, finite / inf = 0). -/
def fDiv : F32 → F32 → F32
  | F32.nan, _ => F32.nan
  | _, F32.nan => F32.nan
  | F32.inf _, F32.inf _ => F32.nan
  | F32.inf s, F32.fin b => if b = 0 then F32.inf s else F32.inf (xor s (decide (b < 0)))
  | F32.fin _, F32.inf _ => F32.fin 0
  | F32.fin a, F32.fin b =>
    if b = 0 then (if a = 0 then F32.nan else F32.inf (decide (a < 0)))
    else fOverflow (a / b)

/-- Rust f32::clamp(lo, hi): NaN propagates (f32::clamp returns NaN when
self is NaN), -inf clamps to lo, +inf clamps to hi, a finite value to
min (max v lo) hi. -/
def fClamp (x : F32) (lo hi : ℚ) : F32 :=
  match x with
  | F32.nan => F32.nan
  | F32.inf s => if s then F32.fin lo else F32.fin hi
  | F32.fin v => F32.fin (min (max v lo) hi)

/-- calculate_humidity from data.rs over the IEEE special-value model,
the same operation sequence as the source. -/
def calculateHumidityF32 (adc_hum : Nat) (cal : CalibrationData) (t_fine : F32) : F32 :=
  let adc_humq : F32 := F32.fin (adc_hum : ℚ)
  let temp_comp := fDiv t_fine (F32.fin 5120)
  let var1 := fSub adc_humq
    (fAdd (fMul (F32.fin (cal.par_h1 : ℚ)) (F32.fin 16))
      (fMul (fDiv (F32.fin (cal.par_h3 : ℚ)) (F32.fin 2)) temp_comp))
  let var2 := fMul var1 (fMul (fDiv (F32.fin (cal.par_h2 : ℚ)) (F32.fin 262144))
    (fAdd (fAdd (F32.fin 1)
        (fMul (fDiv (F32.fin (cal.par_h4 : ℚ)) (F32.fin 16384)) temp_comp))
      (fMul (fMul (fDiv (F32.fin (cal.par_h5 : ℚ)) (F32.fin 1048576)) temp_comp) temp_comp)))
  let var3 := fDiv (F32.fin (cal.par_h6 : ℚ)) (F32.fin 16384)
  let var4 := fDiv (F32.fin (cal.par_h7 : ℚ)) (F32.fin 2097152)
  let calc_hum := fAdd var2 (fMul (fMul (fAdd var3 (fMul var4 temp_comp)) var2) var2)
  fClamp calc_hum 0 100

/-- A calibration record that is all zero except par_h5 = 20: with it the
humidity polynomial overflows on a large finite t_fine and then
multiplies the overflow infinity by the zero par_h2 factor. -/
def overflowCal : CalibrationData :=
  ⟨0, 0, 0, 0, 0, 0, 0, 0, 0, 0, 0, 0, 0, 0, 0, 0, 0, 20, 0, 0, 0, 0, 0, 0, 0, 0⟩

/-- Variant from config.rs (silicon revision). -/
inductive Variant
  | GasLow
  | GasHigh
deriving DecidableEq, Repr

/-- From<u8> for Variant in config.rs: bytes other than 0 and 1 hit the
panic! arm, modelled as none. -/
def variantFromU8 (b : Nat) : Option Variant :=
  if b = 0 then some Variant.GasLow
  else if b = 1 then some Variant.GasHigh
  else none

/-- Variant::calc_gas_resistance from config.rs.  GAS_ARRAY_1 and
GAS_ARRAY_2 live in the repository module constants.rs which is not under
src/, so the two lookup tables are passed as parameters (the claims
settled here do not depend on their entries). -/
def calcGasResistance (ga1 ga2 : Nat → ℚ) (v : Variant)
    (adc_gas : Nat) (range_switching_error : Int) (gas_range : Nat) : ℚ :=
  match v with
  | Variant.GasLow =>
    let adc_gasq : ℚ := adc_gas
    let gas_range_f : ℚ := ((2 ^ gas_range : Nat) : ℚ)
    let var1 := 1340 + 5 * (range_switching_error : ℚ)
    let var2 := var1 * (1 + ga1 gas_range / 100)
    let var3 := 1 + ga2 gas_range / 100
    1 / (var3 * (125 / 1000000000) * gas_range_f * ((adc_gasq - 512) / var2 + 1))
  | Variant.GasHigh =>
    let var1 : Nat := 262144 / 2 ^ gas_range
    let var2 : Int := ((adc_gas : Int) - 512) * 3 + 4096
    1000000 * (var1 : ℚ) / (var2 : ℚ)

/-- SensorMode from config.rs. -/
inductive SMode
  | Sleep
  | Forced
deriving DecidableEq, Repr

/-- From<u8> for SensorMode in config.rs, applied to the 2-bit mode field
of CtrlMeasurment (bits 1:0): 0 is Sleep, 1 is Forced, 2 and 3 hit the
panic! arm, modelled as none. -/
def sensorModeFromBits (r : Nat) : Option SMode :=
  if r % 4 = 0 then some SMode.Sleep
  else if r % 4 = 1 then some SMode.Forced
  else none

/-- Bus/delay events a driver run emits, in order.  readCtrl r is a read
of the control register 0x74 that the device answered with byte r;
writeCtrl v writes byte v to it; settleDelay is the fixed settle pause
DELAY_PERIOD_US of set_mode (the constant lives in the missing
constants.rs); delayUs n is a delay of n microseconds requested by
measure; readFrame is a 15-byte result-frame read. -/
inductive Ev
  | readCtrl (r : Nat)
  | writeCtrl (v : Nat)
  | settleDelay
  | delayUs (n : Nat)
  | readFrame
deriving DecidableEq, Repr

/-- Outcome of the read-until-Sleep loop of I2CHelper::set_mode. -/
inductive SMLoopOut
  | broke (reg : Nat) (rest : List Nat)
  | panicked (b : Nat)
  | starved
deriving DecidableEq, Repr

/-- The loop of I2CHelper::set_mode (i2c_helper.rs and the async twin):
read the control register; on Sleep break with the register value; on
Forced write the register with the mode bits cleared to Sleep, pause,
and read again.  Device answers are consumed from the front of resps;
an exhausted answer list is starvation (a model artifact: the real
device always answers). -/
def setModeLoop : List Nat → List Ev × SMLoopOut
  | [] => ([], SMLoopOut.starved)
  | r :: rest =>
    match sensorModeFromBits r with
    | some SMode.Sleep => ([Ev.readCtrl r], SMLoopOut.broke r rest)
    | some SMode.Forced =>
      let w := r / 4 * 4
      let next := setModeLoop rest
      (Ev.readCtrl r :: Ev.writeCtrl w :: Ev.settleDelay :: next.1, next.2)
    | none => ([Ev.readCtrl r], SMLoopOut.panicked r)

/-- Overall result of set_mode. -/
inductive SMRes
  | ok (rest : List Nat)
  | panicked (b : Nat)
  | starved
deriving DecidableEq, Repr

/-- I2CHelper::set_mode: run the loop, then on target Forced write the
confirmed-Sleep register value with mode bits set to Forced. -/
def setMode (target : SMode) (resps : List Nat) : List Ev × SMRes :=
  match setModeLoop resps with
  | (evs, SMLoopOut.broke reg rest) =>
    match target with
    | SMode.Sleep => (evs, SMRes.ok rest)
    | SMode.Forced => (evs ++ [Ev.writeCtrl (reg / 4 * 4 + 1)], SMRes.ok rest)
  | (evs, SMLoopOut.panicked b) => (evs, SMRes.panicked b)
  | (evs, SMLoopOut.starved) => (evs, SMRes.starved)

/-!
The 15-byte result frame (RawData([u8; 15]) in bitfields.rs) and its
accessors.  Byte k is frame.getD k 0, masked to u8.  The multi-byte
fields go through the From conversions of bitfields.rs (Measurment,
Humidity, GasADC), which on the little-endian host amount to
  temperature/pressure: (msb shifted 12) + (lsb shifted 4) + (xlsb / 16)
  humidity: msb * 256 + lsb
  gas adc: (gas_r_msb * 4) + (gas_r_lsb / 64).
-/
def Frame : Type := List Nat

/-- Byte k of a frame, masked to u8. -/
def fByte (f : Frame) (k : Nat) : Nat := f.getD k 0 % 256

/-- new_data bit: byte 0 bit 7. -/
def newData (f : Frame) : Bool := (fByte f 0).testBit 7

/-- measuring bit: byte 0 bit 5. -/
def measuring (f : Frame) : Bool := (fByte f 0).testBit 5

/-- gas_measuring bit: byte 0 bit 6. -/
def gasMeasuring (f : Frame) : Bool := (fByte f 0).testBit 6

/-- gas_valid bit: byte 14 bit 5. -/
def gasValid (f : Frame) : Bool := (fByte f 14).testBit 5

/-- gas_range field: byte 14 bits 3:0. -/
def gasRange (f : Frame) : Nat := fByte f 14 % 16

/-- 20-bit temperature ADC: bytes 5 (msb), 6 (lsb), 7 (xlsb). -/
def temperatureAdc (f : Frame) : Nat :=
  fByte f 5 * 4096 + fByte f 6 * 16 + fByte f 7 / 16

/-- 20-bit pressure ADC: bytes 2 (msb), 3 (lsb), 4 (xlsb). -/
def pressureAdc (f : Frame) : Nat :=
  fByte f 2 * 4096 + fByte f 3 * 16 + fByte f 4 / 16

/-- 16-bit humidity ADC: bytes 8 (msb), 9 (lsb). -/
def humidityAdc (f : Frame) : Nat := fByte f 8 * 256 + fByte f 9

/-- 10-bit gas ADC: byte 13 (high 8 bits), byte 14 bits 7:6 (low 2 bits). -/
def gasAdc (f : Frame) : Nat := fByte f 13 * 4 + fByte f 14 / 64

/-- MeasurmentData from data.rs (values in the exact-rational model). -/
structure MData where
  temperature : ℚ
  humidity : ℚ
  pressure : ℚ
  gasResistance : Option ℚ
deriving DecidableEq, Repr

/-- MeasurmentData::from_raw from data.rs: bail out (None) on a frame
with measuring set and new_data clear; otherwise decode, with gas
resistance present exactly when gas_valid is set and gas_measuring is
clear. -/
def fromRaw (ga1 ga2 : Nat → ℚ) (v : Variant) (cal : CalibrationData)
    (f : Frame) : Option MData :=
  if measuring f ∧ ¬ newData f then none
  else
    let tt := calculateTemperature (temperatureAdc f) cal
    let pressure := calculatePressure (pressureAdc f) cal tt.2
    let humidity := calculateHumidity (humidityAdc f) cal tt.2
    let gasResistance :=
      if gasValid f ∧ ¬ gasMeasuring f then
        some (calcGasResistance ga1 ga2 v (gasAdc f) cal.range_sw_err (gasRange f))
      else none
    some ⟨tt.1, humidity, pressure, gasResistance⟩

/-- Result of a measure run: a decoded measurement together with the
ambient-temperature feedback value written back into the helper
(temperature as i32), the MeasuringTimeOut error, a SensorMode::from
panic, or answer-list exhaustion (model artifact). -/
inductive MRes
  | okd (d : MData) (ambient : Int)
  | timeout
  | panicked (b : Nat)
  | starved
deriving DecidableEq, Repr

/-- The retry loop of Bme680::measure (lib.rs): on each of the (at most
n) iterations read a frame; when measuring is clear and new_data is set,
decode and return with gas resistance unconditionally present; otherwise
delay delay_period microseconds and retry; when the iterations are
exhausted fail with MeasuringTimeOut. -/
def syncAttempts (ga1 ga2 : Nat → ℚ) (v : Variant) (cal : CalibrationData)
    (dp : Nat) : Nat → List Frame → List Ev × MRes
  | 0, _ => ([], MRes.timeout)
  | _ + 1, [] => ([Ev.readFrame], MRes.starved)
  | n + 1, f :: rest =>
    if ¬ measuring f ∧ newData f then
      let tt := calculateTemperature (temperatureAdc f) cal
      let pressure := calculatePressure (pressureAdc f) cal tt.2
      let humidity := calculateHumidity (humidityAdc f) cal tt.2
      let gasResistance :=
        calcGasResistance ga1 ga2 v (gasAdc f) cal.range_sw_err (gasRange f)
      ([Ev.readFrame], MRes.okd ⟨tt.1, humidity, pressure, some gasResistance⟩ (ratTrunc tt.1))
    else
      let next := syncAttempts ga1 ga2 v cal dp n rest
      (Ev.readFrame :: Ev.delayUs dp :: next.1, next.2)

/-- Bme680::measure (lib.rs): set mode Forced, delay delay_period / 1000
microseconds, then run the 5-iteration retry loop. -/
def syncMeasure (ga1 ga2 : Nat → ℚ) (v : Variant) (cal : CalibrationData)
    (dp : Nat) (ctrl : List Nat) (frames : List Frame) : List Ev × MRes :=
  match setMode SMode.Forced ctrl with
  | (evs, SMRes.ok _) =>
    let next := syncAttempts ga1 ga2 v cal dp 5 frames
    (evs ++ Ev.delayUs (dp / 1000) :: next.1, next.2)
  | (evs, SMRes.panicked b) => (evs, MRes.panicked b)
  | (evs, SMRes.starved) => (evs, MRes.starved)

/-- The retry loop of AsyncBme680::measure (async_impl.rs): on each of
the (at most n) iterations read a frame and decode it with
MeasurmentData::from_raw; on None delay delay_period microseconds and
retry; when the iterations are exhausted fail with MeasuringTimeOut. -/
def asyncAttempts (ga1 ga2 : Nat → ℚ) (v : Variant) (cal : CalibrationData)
    (dp : Nat) : Nat → List Frame → List Ev × MRes
  | 0, _ => ([], MRes.timeout)
  | _ + 1, [] => ([Ev.readFrame], MRes.starved)
  | n + 1, f :: rest =>
    match fromRaw ga1 ga2 v cal f with
    | some d => ([Ev.readFrame], MRes.okd d (ratTrunc d.temperature))
    | none =>
      let next := asyncAttempts ga1 ga2 v cal dp n rest
      (Ev.readFrame :: Ev.delayUs dp :: next.1, next.2)

/-- AsyncBme680::measure (async_impl.rs) on an initialized driver: set
mode Forced, delay delay_period microseconds, then run the 5-iteration
retry loop. -/
def asyncMeasure (ga1 ga2 : Nat → ℚ) (v : Variant) (cal : CalibrationData)
    (dp : Nat) (ctrl : List Nat) (frames : List Frame) : List Ev × MRes :=
  match setMode SMode.Forced ctrl with
  | (evs, SMRes.ok _) =>
    let next := asyncAttempts ga1 ga2 v cal dp 5 frames
    (evs ++ Ev.delayUs dp :: next.1, next.2)
  | (evs, SMRes.panicked b) => (evs, MRes.panicked b)
  | (evs, SMRes.starved) => (evs, MRes.starved)

/-- Modelled from the spec: the delay-period formula of section 4.4 (the
constants CYCLE_DURATION, TPH_SWITCHING_DURATION, GAS_MEAS_DURATION and
WAKEUP_DURATION live in the repository module constants.rs which is not
under src/, so they are parameters here): sum of the three oversampling
cycle counts times the per-cycle duration, plus the three fixed
durations, all in microseconds. -/
def calculateDelayPeriodUs (cycleDur tphDur gasDur wakeDur : Nat)
    (tOs hOs pOs : Oversampling) : Nat :=
  (tOs.cycles + hOs.cycles + pOs.cycles) * cycleDur + tphDur + gasDur + wakeDur

/-- Number of control-register writes in an event trace. -/
def writeCount (l : List Ev) : Nat :=
  l.countP fun e => match e with | Ev.writeCtrl _ => true | _ => false

/-- Checks along a trace that no Forced-mode write (mode bits 01) is
issued while the most recent control-register read reported anything but
Sleep; the Bool argument records whether the most recent read reported
Sleep (initially false: nothing has been read). -/
def forcedWriteDiscipline : Bool → List Ev → Bool
  | _, [] => true
  | _, Ev.readCtrl r :: t => forcedWriteDiscipline (r % 4 == 0) t
  | lastSleep, Ev.writeCtrl v :: t =>
    (!(v % 4 == 1) || lastSleep) && forcedWriteDiscipline lastSleep t
  | lastSleep, _ :: t => forcedWriteDiscipline lastSleep t

/-- Number of 15-byte result-frame reads in an event trace. -/
def readFrameCount : List Ev → Nat
  | [] => 0
  | e :: t => readFrameCount t + (match e with | Ev.readFrame => 1 | _ => 0)

/-- Gas resistance field of a successful measure result. -/
def mresGas : MRes → Option ℚ
  | MRes.okd d _ => d.gasResistance
  | _ => none

/-- Whether a set_mode run hit the SensorMode::from panic. -/
def smresIsPanic : SMRes → Bool
  | SMRes.panicked _ => true
  | _ => false

/-- Whether a measure run hit the SensorMode::from panic. -/
def mresIsPanic : MRes → Bool
  | MRes.panicked _ => true
  | _ => false

/-- Whether a measure run failed with MeasuringTimeOut. -/
def mresIsTimeout : MRes → Bool
  | MRes.timeout => true
  | _ => false

/-- A calibration record with every coefficient zero, used as concrete
input of counterexamples and witnesses. -/
def zeroCal : CalibrationData :=
  ⟨0, 0, 0, 0, 0, 0, 0, 0, 0, 0, 0, 0, 0, 0, 0, 0, 0, 0, 0, 0, 0, 0, 0, 0, 0, 0⟩

/-- All-zero gas lookup table, a concrete instantiation of the
spec-modelled GAS_ARRAY parameters for counterexamples and witnesses. -/
def zga : Nat → ℚ := fun _ => 0

/-- An all-zero 15-byte result frame: new_data clear, measuring clear. -/
def zeroFrame : Frame := List.replicate 15 0

/-- Five all-zero result frames. -/
def frames5 : List Frame := List.replicate 5 zeroFrame

/-- A result frame with new_data set, measuring clear, gas_valid clear. -/
def newDataFrame : Frame := 128 :: List.replicate 14 0

/-- A result frame with new_data set, measuring clear, gas_valid set,
gas_measuring clear. -/
def goodFrame : Frame :=
  [128, 0, 0, 0, 0, 0, 0, 0, 0, 0, 0, 0, 0, 0, 32]

lemma setField_out (c : Cfg) (lo w v p : Nat) (h : p < lo ∨ lo + w ≤ p) :
    setField c lo w v p = c p := by
  unfold setField
  rw [if_neg]
  omega

/-- C1: apply_config overwrites only the bits of fields that are Some:
each of the five Configuration fields that is none keeps its bits of the
raw 5-byte block unchanged, and every bit outside the encoded fields
(temperature oversampling 29..31, pressure oversampling 26..28, humidity
oversampling 8..10, filter 34..36, gas block 0..4) is unchanged in every
case. -/
theorem apply_config_merge (config : Configuration) (c : Cfg) :
    (config.temperature_oversampling = none →
      ∀ p, 29 ≤ p → p < 32 → applyConfig config c p = c p) ∧
    (config.pressure_oversampling = none →
      ∀ p, 26 ≤ p → p < 29 → applyConfig config c p = c p) ∧
    (config.humidity_oversampling = none →
      ∀ p, 8 ≤ p → p < 11 → applyConfig config c p = c p) ∧
    (config.filter = none →
      ∀ p, 34 ≤ p → p < 37 → applyConfig config c p = c p) ∧
    (config.gas_config = none →
      ∀ p, p < 5 → applyConfig config c p = c p) ∧
    (∀ p, ¬ p < 5 → ¬ (8 ≤ p ∧ p < 11) → ¬ (26 ≤ p ∧ p < 32) →
      ¬ (34 ≤ p ∧ p < 37) → applyConfig config c p = c p) := by
  obtain ⟨t, pr, hu, fl, g⟩ := config
  refine ⟨?_, ?_, ?_, ?_, ?_, ?_⟩
  · intro ht p h1 h2
    cases ht
    cases pr <;> cases hu <;> cases fl <;> cases g <;>
      simp only [applyConfig, setField] <;> split_ifs <;> first | rfl | omega
  · intro hpr p h1 h2
    cases hpr
    cases t <;> cases hu <;> cases fl <;> cases g <;>
      simp only [applyConfig, setField] <;> split_ifs <;> first | rfl | omega
  · intro hhu p h1 h2
    cases hhu
    cases t <;> cases pr <;> cases fl <;> cases g <;>
      simp only [applyConfig, setField] <;> split_ifs <;> first | rfl | omega
  · intro hfl p h1 h2
    cases hfl
    cases t <;> cases pr <;> cases hu <;> cases g <;>
      simp only [applyConfig, setField] <;> split_ifs <;> first | rfl | omega
  · intro hg p h1
    cases hg
    cases t <;> cases pr <;> cases hu <;> cases fl <;>
      simp only [applyConfig, setField] <;> split_ifs <;> first | rfl | omega
  · intro p h1 h2 h3 h4
    cases t <;> cases pr <;> cases hu <;> cases fl <;> cases g <;>
      simp only [applyConfig, setField] <;> split_ifs <;> first | rfl | omega

/-- Witness for apply_config_merge: with every field none, bit 29 of an
all-ones raw block is untouched. -/
theorem apply_config_merge_witness :
    applyConfig ⟨none, none, none, none, none⟩ (fun _ => true) 29 = true := by
  have h := (apply_config_merge ⟨none, none, none, none, none⟩ (fun _ => true)).1
  exact h rfl 29 (by omega) (by omega)

/-- C8 counterexample: a heater duration of 65536 milliseconds is at
least 0xFFF milliseconds, yet calc_gas_wait returns 0 (the u128-to-u16
cast wraps the duration to 0 before the saturation test). -/
theorem calc_gas_wait_wrap_counterexample :
    0xFFF ≤ 65536 ∧ calcGasWait ⟨65536, 300⟩ = 0 := by
  refine ⟨by omega, ?_⟩
  rw [calcGasWait]
  norm_num [MAX_HEATER_WAIT_DURATION_MS]
  rw [gasWaitLoop]
  norm_num

/-- C8 amended: calc_gas_wait returns the saturated byte 0xFF for every
heater duration whose millisecond count taken modulo 2 ^ 16 (the u16
truncation) is at least 0xFFF — in particular for every duration in
[0xFFF, 0xFFFF] — and for heater_duration = 100 ms (with target
temperature 200 degrees C) it returns exactly 0x59. -/
theorem calc_gas_wait_amended :
    (∀ ms temp, 0xFFF ≤ ms % 65536 → calcGasWait ⟨ms, temp⟩ = 0xFF) ∧
    calcGasWait ⟨100, 200⟩ = 0x59 := by
  constructor
  · intro ms temp h
    rw [calcGasWait]
    simp only [MAX_HEATER_WAIT_DURATION_MS]
    rw [if_pos h]
  · rw [calcGasWait]
    norm_num [MAX_HEATER_WAIT_DURATION_MS]
    rw [gasWaitLoop]
    norm_num
    rw [gasWaitLoop]
    norm_num

/-- Witness for calc_gas_wait_amended: the saturation clause applied at
exactly 0xFFF milliseconds. -/
theorem calc_gas_wait_amended_witness :
    0xFFF ≤ 0xFFF % 65536 ∧ calcGasWait ⟨0xFFF, 300⟩ = 0xFF :=
  ⟨by omega, calc_gas_wait_amended.1 0xFFF 300 (by omega)⟩

lemma fAdd_nan_left (y : F32) : fAdd F32.nan y = F32.nan := by cases y <;> rfl

lemma fAdd_nan_right (x : F32) : fAdd x F32.nan = F32.nan := by cases x <;> rfl

lemma fSub_nan_left (y : F32) : fSub F32.nan y = F32.nan := by cases y <;> rfl

lemma fSub_nan_right (x : F32) : fSub x F32.nan = F32.nan := by cases x <;> rfl

lemma fMul_nan_left (y : F32) : fMul F32.nan y = F32.nan := by cases y <;> rfl

lemma fMul_nan_right (x : F32) : fMul x F32.nan = F32.nan := by cases x <;> rfl

lemma fDiv_nan_left (y : F32) : fDiv F32.nan y = F32.nan := by cases y <;> rfl

lemma fDiv_nan_right (x : F32) : fDiv x F32.nan = F32.nan := by cases x <;> rfl

lemma fClamp_nan (lo hi : ℚ) : fClamp F32.nan lo hi = F32.nan := rfl

lemma fAdd_fin_small (a b : ℚ) (h1 : ¬ f32OverflowThreshold ≤ a + b)
    (h2 : ¬ a + b ≤ -f32OverflowThreshold) :
    fAdd (F32.fin a) (F32.fin b) = F32.fin (a + b) := by
  simp only [fAdd, fOverflow, if_neg h1, if_neg h2]

lemma fSub_fin_small (a b : ℚ) (h1 : ¬ f32OverflowThreshold ≤ a - b)
    (h2 : ¬ a - b ≤ -f32OverflowThreshold) :
    fSub (F32.fin a) (F32.fin b) = F32.fin (a - b) := by
  simp only [fSub, fOverflow, if_neg h1, if_neg h2]

lemma fMul_fin_small (a b : ℚ) (h1 : ¬ f32OverflowThreshold ≤ a * b)
    (h2 : ¬ a * b ≤ -f32OverflowThreshold) :
    fMul (F32.fin a) (F32.fin b) = F32.fin (a * b) := by
  simp only [fMul, fOverflow, if_neg h1, if_neg h2]

lemma fMul_fin_overflow (a b : ℚ) (h : f32OverflowThreshold ≤ a * b) :
    fMul (F32.fin a) (F32.fin b) = F32.inf false := by
  simp only [fMul, fOverflow, if_pos h]

lemma fDiv_fin_small (a b : ℚ) (hb : ¬ b = 0)
    (h1 : ¬ f32OverflowThreshold ≤ a / b)
    (h2 : ¬ a / b ≤ -f32OverflowThreshold) :
    fDiv (F32.fin a) (F32.fin b) = F32.fin (a / b) := by
  simp only [fDiv, fOverflow, if_neg hb, if_neg h1, if_neg h2]

lemma fClamp_cases (x : F32) :
    fClamp x 0 100 = F32.nan ∨
      ∃ q, fClamp x 0 100 = F32.fin q ∧ 0 ≤ q ∧ q ≤ 100 := by
  cases x with
  | nan => exact Or.inl rfl
  | inf s =>
    cases s with
    | false => exact Or.inr ⟨100, rfl, by norm_num, le_refl 100⟩
    | true => exact Or.inr ⟨0, rfl, le_refl 0, by norm_num⟩
  | fin v =>
    exact Or.inr ⟨min (max v 0) 100, rfl,
      le_min (le_max_right v 0) (by norm_num), min_le_right _ _⟩

/-- C6 counterexample: with t_fine = NaN the result of
calculate_humidity is NaN — every arithmetic operation and Rust
f32::clamp propagate NaN — so the result is not a value inside [0, 100];
the claim quantifies over every f32 t_fine, which includes NaN. -/
theorem calculate_humidity_nan_counterexample :
    calculateHumidityF32 0 zeroCal F32.nan = F32.nan := by
  simp only [calculateHumidityF32]
  simp only [fDiv_nan_left, fMul_nan_right, fAdd_nan_right, fSub_nan_right,
    fMul_nan_left, fAdd_nan_left, fClamp_nan]

/-- C6 amended: for every humidity ADC value, calibration set and f32
t_fine, calculate_humidity returns either NaN or a finite value within
[0, 100] — the final clamp pins finite values and infinities into the
range and propagates NaN.  A NaN t_fine always yields NaN, and NaN also
arises from finite non-NaN input through overflow: with par_h5 = 20 and
par_h2 = 0, the exactly representable t_fine = 5 * 2 ^ 85 makes the
par_h5 term overflow to infinity and the zero par_h2 factor times that
infinity is NaN (every intermediate of that run is exact in binary32,
so the instance is bit-faithful). -/
theorem calculate_humidity_range :
    (∀ (adc : Nat) (cal : CalibrationData) (t : F32),
      calculateHumidityF32 adc cal t = F32.nan ∨
        ∃ q, calculateHumidityF32 adc cal t = F32.fin q ∧ 0 ≤ q ∧ q ≤ 100) ∧
    (∀ (adc : Nat) (cal : CalibrationData),
      calculateHumidityF32 adc cal F32.nan = F32.nan) ∧
    calculateHumidityF32 0 overflowCal (F32.fin (5 * 2 ^ 85)) = F32.nan := by
  refine ⟨fun adc cal t => ?_, fun adc cal => ?_, ?_⟩
  · simp only [calculateHumidityF32]
    exact fClamp_cases _
  · simp only [calculateHumidityF32]
    simp only [fDiv_nan_left, fMul_nan_right, fAdd_nan_right, fSub_nan_right,
      fMul_nan_left, fAdd_nan_left, fClamp_nan]
  · have h_tc : fDiv (F32.fin (5 * 2 ^ 85)) (F32.fin 5120) = F32.fin (2 ^ 75) := by
      rw [fDiv_fin_small (5 * 2 ^ 85) 5120 (by norm_num)
        (by norm_num [f32OverflowThreshold]) (by norm_num [f32OverflowThreshold])]
      norm_num
    have h3 : fDiv (F32.fin 0) (F32.fin 2) = F32.fin 0 := by
      rw [fDiv_fin_small 0 2 (by norm_num)
        (by norm_num [f32OverflowThreshold]) (by norm_num [f32OverflowThreshold])]
      norm_num
    have h4 : fMul (F32.fin 0) (F32.fin (2 ^ 75)) = F32.fin 0 := by
      rw [fMul_fin_small 0 (2 ^ 75)
        (by norm_num [f32OverflowThreshold]) (by norm_num [f32OverflowThreshold])]
      norm_num
    have h5 : fMul (F32.fin 0) (F32.fin 16) = F32.fin 0 := by
      rw [fMul_fin_small 0 16
        (by norm_num [f32OverflowThreshold]) (by norm_num [f32OverflowThreshold])]
      norm_num
    have h6 : fAdd (F32.fin 0) (F32.fin 0) = F32.fin 0 := by
      rw [fAdd_fin_small 0 0
        (by norm_num [f32OverflowThreshold]) (by norm_num [f32OverflowThreshold])]
      norm_num
    have h7 : fSub (F32.fin 0) (F32.fin 0) = F32.fin 0 := by
      rw [fSub_fin_small 0 0
        (by norm_num [f32OverflowThreshold]) (by norm_num [f32OverflowThreshold])]
      norm_num
    have h8 : fDiv (F32.fin 0) (F32.fin 262144) = F32.fin 0 := by
      rw [fDiv_fin_small 0 262144 (by norm_num)
        (by norm_num [f32OverflowThreshold]) (by norm_num [f32OverflowThreshold])]
      norm_num
    have h9 : fDiv (F32.fin 0) (F32.fin 16384) = F32.fin 0 := by
      rw [fDiv_fin_small 0 16384 (by norm_num)
        (by norm_num [f32OverflowThreshold]) (by norm_num [f32OverflowThreshold])]
      norm_num
    have h11 : fAdd (F32.fin 1) (F32.fin 0) = F32.fin 1 := by
      rw [fAdd_fin_small 1 0
        (by norm_num [f32OverflowThreshold]) (by norm_num [f32OverflowThreshold])]
      norm_num
    have h12 : fDiv (F32.fin 20) (F32.fin 1048576) = F32.fin (5 / 262144) := by
      rw [fDiv_fin_small 20 1048576 (by norm_num)
        (by norm_num [f32OverflowThreshold]) (by norm_num [f32OverflowThreshold])]
      norm_num
    have h13 : fMul (F32.fin (5 / 262144)) (F32.fin (2 ^ 75)) =
        F32.fin (5 * 2 ^ 57) := by
      rw [fMul_fin_small (5 / 262144) (2 ^ 75)
        (by norm_num [f32OverflowThreshold]) (by norm_num [f32OverflowThreshold])]
      norm_num
    have h14 : fMul (F32.fin (5 * 2 ^ 57)) (F32.fin (2 ^ 75)) =
        F32.inf false := by
      rw [fMul_fin_overflow (5 * 2 ^ 57) (2 ^ 75)
        (by norm_num [f32OverflowThreshold])]
    have h15 : fAdd (F32.fin 1) (F32.inf false) = F32.inf false := rfl
    have h17 : fMul (F32.fin 0) (F32.inf false) = F32.nan := by
      simp only [fMul]
      norm_num
    have h19 : fDiv (F32.fin 0) (F32.fin 2097152) = F32.fin 0 := by
      rw [fDiv_fin_small 0 2097152 (by norm_num)
        (by norm_num [f32OverflowThreshold]) (by norm_num [f32OverflowThreshold])]
      norm_num
    simp only [calculateHumidityF32, overflowCal, Nat.cast_zero,
      Nat.cast_ofNat, Int.cast_zero, Int.cast_ofNat]
    simp only [h_tc, h12, h13, h14, h3, h4, h5, h6, h7, h8, h9, h11, h15,
      h17, h19, fMul_nan_right, fMul_nan_left, fAdd_nan_right, fAdd_nan_left,
      fSub_nan_right, fClamp_nan]

/-- C7: calculate_pressure returns 0 whenever the computed divisor var1
truncated to i16 is zero, and otherwise returns the polynomial-corrected
pressure obtained by dividing by var1 (exact-rational model of f32). -/
theorem calculate_pressure_guard (adc : Nat) (cal : CalibrationData) (t_fine : ℚ) :
    calculatePressure adc cal t_fine =
      if ratAsI16 (pressureVar1 cal t_fine) = 0 then 0
      else
        let var1 := pressureVar1 cal t_fine
        let v0 := t_fine / 2 - 64000
        let var2 := (v0 * v0 * ((cal.par_p6 : ℚ) / 131072)
          + v0 * (cal.par_p5 : ℚ) * 2) / 4 + (cal.par_p4 : ℚ) * 65536
        let calc_pres := ((1048576 - (adc : ℚ) - var2 / 4096) * 6250) / var1
        calc_pres + (((cal.par_p9 : ℚ) * calc_pres * calc_pres) / 2147483648
          + calc_pres * ((cal.par_p8 : ℚ) / 32768)
          + (calc_pres / 256) * (calc_pres / 256) * (calc_pres / 256)
            * ((cal.par_p10 : ℚ) / 131072)
          + (cal.par_p7 : ℚ) * 128) / 16 := by
  by_cases h : ratAsI16 (pressureVar1 cal t_fine) = 0
  · simp only [calculatePressure, pressureVar1] at h ⊢
    rw [if_neg (by simpa using h), if_pos h]
  · simp only [calculatePressure, pressureVar1] at h ⊢
    rw [if_pos h, if_neg h]

/-- C9 counterexample: a variant-ID byte of 2 hits the panic! arm of
From<u8> for Variant (modelled as none) — get_variant_id aborts instead
of returning a recoverable BmeError value to the caller (error.rs has no
InvalidVariantByte variant at all). -/
theorem variant_from_panic_counterexample :
    variantFromU8 2 = none := by
  rfl

/-- C9 amended: Variant::from maps byte 0 to GasLow and byte 1 to
GasHigh, and every other byte reaches the panic! arm (modelled as none),
aborting the process rather than surfacing a recoverable initialization
error. -/
theorem variant_from_amended :
    variantFromU8 0 = some Variant.GasLow ∧
    variantFromU8 1 = some Variant.GasHigh ∧
    ∀ b, 2 ≤ b → variantFromU8 b = none := by
  refine ⟨rfl, rfl, fun b h => ?_⟩
  unfold variantFromU8
  rw [if_neg (by omega), if_neg (by omega)]

/-- Witness for variant_from_amended at the concrete byte 47. -/
theorem variant_from_amended_witness :
    2 ≤ 47 ∧ variantFromU8 47 = none :=
  ⟨by omega, variant_from_amended.2.2 47 (by omega)⟩

lemma setModeLoop_no_panic (resps : List Nat) (h : ∀ r ∈ resps, r % 4 < 2) :
    ∀ b, (setModeLoop resps).2 ≠ SMLoopOut.panicked b := by
  induction resps with
  | nil => intro b; simp [setModeLoop]
  | cons r rest ih =>
    intro b
    have hr : r % 4 < 2 := h r (by simp)
    have hrest : ∀ x ∈ rest, x % 4 < 2 := fun x hx => h x (by simp [hx])
    by_cases h0 : r % 4 = 0
    · simp [setModeLoop, sensorModeFromBits, h0]
    · have h1 : r % 4 = 1 := by omega
      simp only [setModeLoop, sensorModeFromBits, h1]
      norm_num
      exact ih hrest b

lemma setMode_no_panic (target : SMode) (resps : List Nat)
    (h : ∀ r ∈ resps, r % 4 < 2) :
    ∀ b, (setMode target resps).2 ≠ SMRes.panicked b := by
  intro b
  unfold setMode
  rcases e : setModeLoop resps with ⟨evs, out⟩
  cases out with
  | broke reg rest => cases target <;> simp
  | panicked b2 =>
    have := setModeLoop_no_panic resps h b2
    rw [e] at this
    simp at this
  | starved => simp

lemma syncAttempts_no_panic (ga1 ga2 : Nat → ℚ) (v : Variant)
    (cal : CalibrationData) (dp : Nat) :
    ∀ n frames b, (syncAttempts ga1 ga2 v cal dp n frames).2 ≠ MRes.panicked b := by
  intro n
  induction n with
  | zero => intro frames b; simp [syncAttempts]
  | succ n ih =>
    intro frames b
    cases frames with
    | nil => simp [syncAttempts]
    | cons f rest =>
      by_cases hc : ¬ measuring f ∧ newData f
      · simp [syncAttempts, hc]
      · simp only [syncAttempts, if_neg hc]
        exact ih rest b

lemma asyncAttempts_no_panic (ga1 ga2 : Nat → ℚ) (v : Variant)
    (cal : CalibrationData) (dp : Nat) :
    ∀ n frames b, (asyncAttempts ga1 ga2 v cal dp n frames).2 ≠ MRes.panicked b := by
  intro n
  induction n with
  | zero => intro frames b; simp [asyncAttempts]
  | succ n ih =>
    intro frames b
    cases frames with
    | nil => simp [asyncAttempts]
    | cons f rest =>
      rcases e : fromRaw ga1 ga2 v cal f with _ | d
      · simp only [asyncAttempts, e]
        exact ih rest b
      · simp [asyncAttempts, e]

/-- C10: a control-register response whose 2-bit mode field is 2 (neither
Sleep = 0 nor Forced = 1) makes set_mode hit the panic! arm of
From<u8> for SensorMode instead of returning a BmeError, and the mode
machinery (set_mode for either target, hence wake_up and put_to_sleep,
and both measure implementations) is panic-free whenever every
control-register response carries mode bits 0 or 1. -/
theorem sensor_mode_panic :
    ((setMode SMode.Sleep [2]).2 = SMRes.panicked 2) ∧
    (∀ target resps, (∀ r ∈ resps, r % 4 < 2) →
      smresIsPanic (setMode target resps).2 = false) ∧
    (∀ ga1 ga2 v cal dp ctrl frames, (∀ r ∈ ctrl, r % 4 < 2) →
      mresIsPanic (syncMeasure ga1 ga2 v cal dp ctrl frames).2 = false) ∧
    (∀ ga1 ga2 v cal dp ctrl frames, (∀ r ∈ ctrl, r % 4 < 2) →
      mresIsPanic (asyncMeasure ga1 ga2 v cal dp ctrl frames).2 = false) := by
  have hsm : ∀ target resps, (∀ r ∈ resps, r % 4 < 2) →
      smresIsPanic (setMode target resps).2 = false := by
    intro target resps h
    have hb := setMode_no_panic target resps h
    rcases e : (setMode target resps).2 with rest | b | _
    · rfl
    · exact absurd e (hb b)
    · rfl
  refine ⟨rfl, hsm, ?_, ?_⟩
  · intro ga1 ga2 v cal dp ctrl frames h
    have hb : ∀ b, (syncMeasure ga1 ga2 v cal dp ctrl frames).2 ≠
        MRes.panicked b := by
      intro b
      unfold syncMeasure
      rcases e : setMode SMode.Forced ctrl with ⟨evs, out⟩
      cases out with
      | ok rest =>
        simp only []
        exact syncAttempts_no_panic ga1 ga2 v cal dp 5 frames b
      | panicked b2 =>
        have := setMode_no_panic SMode.Forced ctrl h b2
        rw [e] at this
        simp at this
      | starved => simp
    rcases e2 : (syncMeasure ga1 ga2 v cal dp ctrl frames).2 with _ | _ | b | _
    · rfl
    · rfl
    · exact absurd e2 (hb b)
    · rfl
  · intro ga1 ga2 v cal dp ctrl frames h
    have hb : ∀ b, (asyncMeasure ga1 ga2 v cal dp ctrl frames).2 ≠
        MRes.panicked b := by
      intro b
      unfold asyncMeasure
      rcases e : setMode SMode.Forced ctrl with ⟨evs, out⟩
      cases out with
      | ok rest =>
        simp only []
        exact asyncAttempts_no_panic ga1 ga2 v cal dp 5 frames b
      | panicked b2 =>
        have := setMode_no_panic SMode.Forced ctrl h b2
        rw [e] at this
        simp at this
      | starved => simp
    rcases e2 : (asyncMeasure ga1 ga2 v cal dp ctrl frames).2 with _ | _ | b | _
    · rfl
    · rfl
    · exact absurd e2 (hb b)
    · rfl

/-- Witness for sensor_mode_panic: the panic-freedom clause at the
concrete response list with mode bits 0 and 1. -/
theorem sensor_mode_panic_witness :
    smresIsPanic (setMode SMode.Sleep [1, 0]).2 = false :=
  sensor_mode_panic.2.1 SMode.Sleep [1, 0] (by decide)

lemma sensorModeFromBits_sleep {r : Nat} (h : r % 4 = 0) :
    sensorModeFromBits r = some SMode.Sleep := by
  unfold sensorModeFromBits
  rw [if_pos h]

lemma sensorModeFromBits_forced {r : Nat} (h : r % 4 = 1) :
    sensorModeFromBits r = some SMode.Forced := by
  unfold sensorModeFromBits
  rw [if_neg (by omega), if_pos h]

lemma sensorModeFromBits_invalid {r : Nat} (h0 : ¬ r % 4 = 0) (h1 : ¬ r % 4 = 1) :
    sensorModeFromBits r = none := by
  unfold sensorModeFromBits
  rw [if_neg h0, if_neg h1]

lemma setModeLoop_cons_sleep {r : Nat} (rest : List Nat) (h : r % 4 = 0) :
    setModeLoop (r :: rest) = ([Ev.readCtrl r], SMLoopOut.broke r rest) := by
  unfold setModeLoop
  rw [sensorModeFromBits_sleep h]

lemma setModeLoop_cons_forced {r : Nat} (rest : List Nat) (h : r % 4 = 1) :
    setModeLoop (r :: rest) =
      (Ev.readCtrl r :: Ev.writeCtrl (r / 4 * 4) :: Ev.settleDelay ::
        (setModeLoop rest).1, (setModeLoop rest).2) := by
  conv_lhs => rw [setModeLoop]
  rw [sensorModeFromBits_forced h]

lemma setModeLoop_cons_invalid {r : Nat} (rest : List Nat)
    (h0 : ¬ r % 4 = 0) (h1 : ¬ r % 4 = 1) :
    setModeLoop (r :: rest) = ([Ev.readCtrl r], SMLoopOut.panicked r) := by
  unfold setModeLoop
  rw [sensorModeFromBits_invalid h0 h1]

lemma setModeLoop_trace_true (resps : List Nat) :
    ∀ b : Bool, forcedWriteDiscipline b (setModeLoop resps).1 = true := by
  induction resps with
  | nil => intro b; simp [setModeLoop, forcedWriteDiscipline]
  | cons r rest ih =>
    intro b
    by_cases h0 : r % 4 = 0
    · rw [setModeLoop_cons_sleep rest h0]
      simp [forcedWriteDiscipline]
    · by_cases h1 : r % 4 = 1
      · have hw : ¬ (r / 4 * 4) % 4 = 1 := by omega
        rw [setModeLoop_cons_forced rest h1]
        simp only [forcedWriteDiscipline]
        rw [ih]
        simp [Nat.mod_self, show (r / 4 * 4) % 4 = 0 by omega]
      · rw [setModeLoop_cons_invalid rest h0 h1]
        simp [forcedWriteDiscipline]

lemma setModeLoop_trace_broke (resps : List Nat) :
    ∀ reg rest, (setModeLoop resps).2 = SMLoopOut.broke reg rest →
      (reg % 4 = 0 ∧
        ∀ (b : Bool) (t : List Ev),
          forcedWriteDiscipline b ((setModeLoop resps).1 ++ t) =
            forcedWriteDiscipline true t) := by
  induction resps with
  | nil => intro reg rest h; simp [setModeLoop] at h
  | cons r rest0 ih =>
    intro reg rest h
    by_cases h0 : r % 4 = 0
    · rw [setModeLoop_cons_sleep rest0 h0] at h ⊢
      injection h with hreg hrest
      constructor
      · omega
      · intro b t
        simp [forcedWriteDiscipline, show (r % 4 == 0) = true by simp [h0]]
    · by_cases h1 : r % 4 = 1
      · rw [setModeLoop_cons_forced rest0 h1] at h ⊢
        obtain ⟨hm, hrec⟩ := ih reg rest h
        refine ⟨hm, fun b t => ?_⟩
        simp only [List.cons_append, forcedWriteDiscipline, List.append_eq]
        rw [show (r % 4 == 0) = false by simp [h1]]
        rw [hrec false t]
        simp [show ((r / 4 * 4) % 4 == 1) = false by
          simp [show (r / 4 * 4) % 4 = 0 by omega]]
      · rw [setModeLoop_cons_invalid rest0 h0 h1] at h
        simp at h

/-- C5 counterexample: a run of set_mode to Sleep in which the device
reports Forced twice before settling issues two Sleep writes, not
exactly one — the first response reports Forced (mode bits 01). -/
theorem set_mode_two_writes_counterexample :
    sensorModeFromBits 1 = some SMode.Forced ∧
    (setMode SMode.Sleep [1, 1, 0]).1 =
      [Ev.readCtrl 1, Ev.writeCtrl 0, Ev.settleDelay,
       Ev.readCtrl 1, Ev.writeCtrl 0, Ev.settleDelay, Ev.readCtrl 0] ∧
    writeCount (setMode SMode.Sleep [1, 1, 0]).1 = 2 := by
  refine ⟨rfl, rfl, rfl⟩

/-- C5 amended: when the device reports Forced on the first read and
Sleep on the second, set_mode to Sleep issues exactly the transaction
sequence read (Forced), write (Sleep), settle, read (Sleep) — one write,
preceded by the Forced read and followed by the confirming Sleep read —
and in every run of set_mode (either target), a Forced-mode write is
never issued while the most recent control-register read reported
anything but Sleep. -/
theorem set_mode_amended :
    (∀ r0 r1 rest, r0 % 4 = 1 → r1 % 4 = 0 →
      setMode SMode.Sleep (r0 :: r1 :: rest) =
        ([Ev.readCtrl r0, Ev.writeCtrl (r0 / 4 * 4), Ev.settleDelay, Ev.readCtrl r1],
          SMRes.ok rest)) ∧
    (∀ target resps, forcedWriteDiscipline false (setMode target resps).1 = true) := by
  constructor
  · intro r0 r1 rest h0 h1
    have h0n : ¬ r0 % 4 = 0 := by omega
    simp only [setMode, setModeLoop, sensorModeFromBits, h0, h1]
    norm_num [h0n]
  · intro target resps
    unfold setMode
    rcases e : setModeLoop resps with ⟨evs, out⟩
    have h1 : (setModeLoop resps).1 = evs := by rw [e]
    cases out with
    | broke reg rest =>
      have h2 : (setModeLoop resps).2 = SMLoopOut.broke reg rest := by rw [e]
      obtain ⟨hm, hrec⟩ := setModeLoop_trace_broke resps reg rest h2
      cases target with
      | Sleep =>
        rw [← h1]
        exact setModeLoop_trace_true resps false
      | Forced =>
        simp only []
        rw [← h1, hrec false [Ev.writeCtrl (reg / 4 * 4 + 1)]]
        simp [forcedWriteDiscipline]
    | panicked b =>
      rw [← h1]
      exact setModeLoop_trace_true resps false
    | starved =>
      rw [← h1]
      exact setModeLoop_trace_true resps false

/-- Witness for set_mode_amended: the single-write clause at the
concrete Forced-then-Sleep response pair. -/
theorem set_mode_amended_witness :
    setMode SMode.Sleep [1, 0] =
      ([Ev.readCtrl 1, Ev.writeCtrl 0, Ev.settleDelay, Ev.readCtrl 0],
        SMRes.ok []) :=
  set_mode_amended.1 1 0 [] rfl rfl

lemma fromRaw_none_iff (ga1 ga2 : Nat → ℚ) (v : Variant)
    (cal : CalibrationData) (f : Frame) :
    fromRaw ga1 ga2 v cal f = none ↔ (measuring f ∧ ¬ newData f) := by
  unfold fromRaw
  split_ifs with h
  · simp [h]
  · constructor
    · intro he
      exact absurd he (by simp)
    · intro hx
      exact absurd hx h

lemma syncAttempts_timeout_iff (ga1 ga2 : Nat → ℚ) (v : Variant)
    (cal : CalibrationData) (dp : Nat) :
    ∀ (n : Nat) (frames : List Frame), frames.length = n →
    ((syncAttempts ga1 ga2 v cal dp n frames).2 = MRes.timeout ↔
      ∀ f ∈ frames, ¬ (¬ measuring f ∧ newData f)) := by
  intro n
  induction n with
  | zero =>
    intro frames h
    rw [List.length_eq_zero] at h
    subst h
    simp [syncAttempts]
  | succ n ih =>
    intro frames h
    cases frames with
    | nil => simp at h
    | cons f rest =>
      simp only [List.length_cons, Nat.succ.injEq] at h
      by_cases hc : ¬ measuring f ∧ newData f
      · have hres : (syncAttempts ga1 ga2 v cal dp (n + 1) (f :: rest)).2 ≠
            MRes.timeout := by
          simp [syncAttempts, hc]
        constructor
        · intro he
          exact absurd he hres
        · intro hall
          exact absurd hc (hall f (by simp))
      · simp only [syncAttempts, if_neg hc]
        rw [ih rest h]
        constructor
        · intro hall g hg
          rcases List.mem_cons.1 hg with he | hm
          · subst he
            exact hc
          · exact hall g hm
        · intro hall g hg
          exact hall g (List.mem_cons_of_mem f hg)

lemma asyncAttempts_timeout_iff (ga1 ga2 : Nat → ℚ) (v : Variant)
    (cal : CalibrationData) (dp : Nat) :
    ∀ (n : Nat) (frames : List Frame), frames.length = n →
    ((asyncAttempts ga1 ga2 v cal dp n frames).2 = MRes.timeout ↔
      ∀ f ∈ frames, (measuring f ∧ ¬ newData f)) := by
  intro n
  induction n with
  | zero =>
    intro frames h
    rw [List.length_eq_zero] at h
    subst h
    simp [asyncAttempts]
  | succ n ih =>
    intro frames h
    cases frames with
    | nil => simp at h
    | cons f rest =>
      simp only [List.length_cons, Nat.succ.injEq] at h
      rcases e : fromRaw ga1 ga2 v cal f with _ | d
      · have hf : measuring f ∧ ¬ newData f := (fromRaw_none_iff ga1 ga2 v cal f).1 e
        simp only [asyncAttempts, e]
        rw [ih rest h]
        constructor
        · intro hall g hg
          rcases List.mem_cons.1 hg with he | hm
          · subst he
            exact hf
          · exact hall g hm
        · intro hall g hg
          exact hall g (List.mem_cons_of_mem f hg)
      · have hf : ¬ (measuring f ∧ ¬ newData f) := by
          intro hx
          rw [← fromRaw_none_iff ga1 ga2 v cal f] at hx
          rw [e] at hx
          cases hx
        constructor
        · intro he
          simp [asyncAttempts, e] at he
        · intro hall
          exact absurd (hall f (by simp)) hf

lemma syncAttempts_delay_mem (ga1 ga2 : Nat → ℚ) (v : Variant)
    (cal : CalibrationData) (dp : Nat) :
    ∀ (n : Nat) (frames : List Frame) (m : Nat),
      Ev.delayUs m ∈ (syncAttempts ga1 ga2 v cal dp n frames).1 → m = dp := by
  intro n
  induction n with
  | zero => intro frames m hm; simp [syncAttempts] at hm
  | succ n ih =>
    intro frames m hm
    cases frames with
    | nil => simp [syncAttempts] at hm
    | cons f rest =>
      by_cases hc : ¬ measuring f ∧ newData f
      · simp [syncAttempts, hc] at hm
      · simp only [syncAttempts, if_neg hc, List.mem_cons] at hm
        rcases hm with h1 | h1 | h1
        · exact absurd h1 (by simp)
        · injection h1
        · exact ih rest m h1

lemma asyncAttempts_delay_mem (ga1 ga2 : Nat → ℚ) (v : Variant)
    (cal : CalibrationData) (dp : Nat) :
    ∀ (n : Nat) (frames : List Frame) (m : Nat),
      Ev.delayUs m ∈ (asyncAttempts ga1 ga2 v cal dp n frames).1 → m = dp := by
  intro n
  induction n with
  | zero => intro frames m hm; simp [asyncAttempts] at hm
  | succ n ih =>
    intro frames m hm
    cases frames with
    | nil => simp [asyncAttempts] at hm
    | cons f rest =>
      rcases e : fromRaw ga1 ga2 v cal f with _ | d
      · simp only [asyncAttempts, e, List.mem_cons] at hm
        rcases hm with h1 | h1 | h1
        · exact absurd h1 (by simp)
        · injection h1
        · exact ih rest m h1
      · simp [asyncAttempts, e] at hm

lemma syncAttempts_read_count (ga1 ga2 : Nat → ℚ) (v : Variant)
    (cal : CalibrationData) (dp : Nat) :
    ∀ (n : Nat) (frames : List Frame),
      readFrameCount (syncAttempts ga1 ga2 v cal dp n frames).1 ≤ n := by
  intro n
  induction n with
  | zero => intro frames; simp [syncAttempts, readFrameCount]
  | succ n ih =>
    intro frames
    cases frames with
    | nil => simp [syncAttempts, readFrameCount]
    | cons f rest =>
      by_cases hc : ¬ measuring f ∧ newData f
      · simp [syncAttempts, hc, readFrameCount]
      · simp only [syncAttempts, if_neg hc, readFrameCount]
        have := ih rest
        omega

lemma asyncAttempts_read_count (ga1 ga2 : Nat → ℚ) (v : Variant)
    (cal : CalibrationData) (dp : Nat) :
    ∀ (n : Nat) (frames : List Frame),
      readFrameCount (asyncAttempts ga1 ga2 v cal dp n frames).1 ≤ n := by
  intro n
  induction n with
  | zero => intro frames; simp [asyncAttempts, readFrameCount]
  | succ n ih =>
    intro frames
    cases frames with
    | nil => simp [asyncAttempts, readFrameCount]
    | cons f rest =>
      rcases e : fromRaw ga1 ga2 v cal f with _ | d
      · simp only [asyncAttempts, e, readFrameCount]
        have := ih rest
        omega
      · simp [asyncAttempts, e, readFrameCount]

/-- C2 counterexample: against five all-zero frames — each with the
measuring bit clear, hence none of them a still-in-progress conversion
without fresh data — the synchronous measure still fails with
MeasuringTimeOut (its decode test additionally demands new_data set). -/
theorem measure_timeout_counterexample :
    (∀ f ∈ frames5, measuring f = false) ∧
    (syncMeasure zga zga Variant.GasLow zeroCal 0 [0] frames5).2 =
      MRes.timeout := by
  constructor
  · decide
  · rfl

/-- C2 amended: after a successful Forced mode transition, the
synchronous measure delays delay_period / 1000 microseconds before the
first frame read while the asynchronous one delays the full
delay_period; both delay delay_period between retries and read the frame
at most 5 times; against 5 available frames the synchronous measure
fails with MeasuringTimeOut iff no frame has measuring clear and
new_data set, and the asynchronous one fails with MeasuringTimeOut iff
every frame is a still-in-progress conversion without fresh data
(measuring set, new_data clear). -/
theorem measure_retry_amended (ga1 ga2 : Nat → ℚ) (v : Variant)
    (cal : CalibrationData) (dp : Nat) (ctrl : List Nat)
    (frames : List Frame) (evs : List Ev) (rest : List Nat)
    (hsm : setMode SMode.Forced ctrl = (evs, SMRes.ok rest))
    (hlen : frames.length = 5) :
    ((syncMeasure ga1 ga2 v cal dp ctrl frames).2 = MRes.timeout ↔
      ∀ f ∈ frames, ¬ (¬ measuring f ∧ newData f)) ∧
    ((asyncMeasure ga1 ga2 v cal dp ctrl frames).2 = MRes.timeout ↔
      ∀ f ∈ frames, (measuring f ∧ ¬ newData f)) ∧
    ((syncMeasure ga1 ga2 v cal dp ctrl frames).1 =
        evs ++ Ev.delayUs (dp / 1000) :: (syncAttempts ga1 ga2 v cal dp 5 frames).1 ∧
      (∀ m, Ev.delayUs m ∈ (syncAttempts ga1 ga2 v cal dp 5 frames).1 → m = dp) ∧
      readFrameCount (syncAttempts ga1 ga2 v cal dp 5 frames).1 ≤ 5) ∧
    ((asyncMeasure ga1 ga2 v cal dp ctrl frames).1 =
        evs ++ Ev.delayUs dp :: (asyncAttempts ga1 ga2 v cal dp 5 frames).1 ∧
      (∀ m, Ev.delayUs m ∈ (asyncAttempts ga1 ga2 v cal dp 5 frames).1 → m = dp) ∧
      readFrameCount (asyncAttempts ga1 ga2 v cal dp 5 frames).1 ≤ 5) := by
  have hs : syncMeasure ga1 ga2 v cal dp ctrl frames =
      (evs ++ Ev.delayUs (dp / 1000) :: (syncAttempts ga1 ga2 v cal dp 5 frames).1,
        (syncAttempts ga1 ga2 v cal dp 5 frames).2) := by
    unfold syncMeasure
    rw [hsm]
  have ha : asyncMeasure ga1 ga2 v cal dp ctrl frames =
      (evs ++ Ev.delayUs dp :: (asyncAttempts ga1 ga2 v cal dp 5 frames).1,
        (asyncAttempts ga1 ga2 v cal dp 5 frames).2) := by
    unfold asyncMeasure
    rw [hsm]
  refine ⟨?_, ?_, ?_, ?_⟩
  · rw [hs]
    exact syncAttempts_timeout_iff ga1 ga2 v cal dp 5 frames hlen
  · rw [ha]
    exact asyncAttempts_timeout_iff ga1 ga2 v cal dp 5 frames hlen
  · exact ⟨by rw [hs], syncAttempts_delay_mem ga1 ga2 v cal dp 5 frames,
      syncAttempts_read_count ga1 ga2 v cal dp 5 frames⟩
  · exact ⟨by rw [ha], asyncAttempts_delay_mem ga1 ga2 v cal dp 5 frames,
      asyncAttempts_read_count ga1 ga2 v cal dp 5 frames⟩

/-- Witness for measure_retry_amended: the synchronous timeout
characterization at a concrete run (mode response Sleep, five all-zero
frames, delay period 1000). -/
theorem measure_retry_amended_witness :
    (syncMeasure zga zga Variant.GasLow zeroCal 1000 [0] frames5).1 =
      [Ev.readCtrl 0, Ev.writeCtrl 1] ++ Ev.delayUs (1000 / 1000) ::
        (syncAttempts zga zga Variant.GasLow zeroCal 1000 5 frames5).1 :=
  (measure_retry_amended zga zga Variant.GasLow zeroCal 1000 [0] frames5
    [Ev.readCtrl 0, Ev.writeCtrl 1] [] rfl rfl).2.2.1.1

/-- C3 counterexample: a successful synchronous measure on a frame whose
gas_valid bit is clear still returns gas_resistance = Some. -/
theorem gas_always_some_counterexample :
    gasValid newDataFrame = false ∧
    (mresGas (syncMeasure zga zga Variant.GasLow zeroCal 0 [0]
      [newDataFrame]).2).isSome = true := by
  constructor
  · rfl
  · rfl

lemma syncAttempts_okd_gas (ga1 ga2 : Nat → ℚ) (v : Variant)
    (cal : CalibrationData) (dp : Nat) :
    ∀ (n : Nat) (frames : List Frame) (d : MData) (a : Int),
      (syncAttempts ga1 ga2 v cal dp n frames).2 = MRes.okd d a →
      d.gasResistance.isSome = true := by
  intro n
  induction n with
  | zero => intro frames d a h; simp [syncAttempts] at h
  | succ n ih =>
    intro frames d a h
    cases frames with
    | nil => simp [syncAttempts] at h
    | cons f rest =>
      by_cases hc : ¬ measuring f ∧ newData f
      · simp only [syncAttempts, if_pos hc] at h
        injection h with h1 h2
        rw [← h1]
        rfl
      · simp only [syncAttempts, if_neg hc] at h
        exact ih rest d a h

/-- C3 amended: MeasurmentData::from_raw — the decoder the asynchronous
measure uses — returns gas_resistance = Some exactly when gas_valid is
set and gas_measuring is clear, while every successful synchronous
measure returns gas_resistance = Some unconditionally. -/
theorem gas_presence_amended :
    (∀ (ga1 ga2 : Nat → ℚ) (v : Variant) (cal : CalibrationData)
        (f : Frame) (d : MData), fromRaw ga1 ga2 v cal f = some d →
      (d.gasResistance.isSome = true ↔
        (gasValid f = true ∧ gasMeasuring f = false))) ∧
    (∀ (ga1 ga2 : Nat → ℚ) (v : Variant) (cal : CalibrationData)
        (dp : Nat) (ctrl : List Nat) (frames : List Frame) (d : MData) (a : Int),
      (syncMeasure ga1 ga2 v cal dp ctrl frames).2 = MRes.okd d a →
      d.gasResistance.isSome = true) := by
  constructor
  · intro ga1 ga2 v cal f d h
    unfold fromRaw at h
    by_cases hbail : measuring f ∧ ¬ newData f
    · rw [if_pos hbail] at h
      exact absurd h (by simp)
    · rw [if_neg hbail] at h
      simp only [Option.some.injEq] at h
      subst h
      by_cases hg : gasValid f ∧ ¬ gasMeasuring f
      · rw [if_pos hg]
        simp only [Option.isSome_some, true_iff]
        exact ⟨hg.1, by simpa using hg.2⟩
      · rw [if_neg hg]
        constructor
        · intro hx
          exact absurd hx (by simp)
        · intro hx
          exact absurd ⟨hx.1, by simp [hx.2]⟩ hg
  · intro ga1 ga2 v cal dp ctrl frames d a h
    unfold syncMeasure at h
    rcases e : setMode SMode.Forced ctrl with ⟨evs, out⟩
    rw [e] at h
    cases out with
    | ok rest =>
      simp only [] at h
      exact syncAttempts_okd_gas ga1 ga2 v cal dp 5 frames d a h
    | panicked b => simp at h
    | starved => simp at h

/-- Witness for gas_presence_amended: the from_raw clause at the
all-zero frame (gas_valid clear, so the decoded gas resistance is absent). -/
theorem gas_presence_amended_witness :
    (MData.gasResistance ⟨0, 0, 0, none⟩).isSome = true ↔
      (gasValid zeroFrame = true ∧ gasMeasuring zeroFrame = false) :=
  gas_presence_amended.1 zga zga Variant.GasLow zeroCal zeroFrame
    ⟨0, 0, 0, none⟩ (by
      unfold fromRaw
      rw [if_neg (by decide)]
      rw [if_neg (by decide)]
      norm_num [calculateTemperature, calculatePressure, calculateHumidity,
        pressureVar1, rustClamp, ratAsI16, ratTrunc, zeroCal, zeroFrame,
        temperatureAdc, pressureAdc, humidityAdc, fByte])

/-- C4 counterexample: on identical device responses (mode read Sleep,
then five all-zero frames) the synchronous measure fails with
MeasuringTimeOut while the asynchronous measure succeeds — the two
drivers return different results. -/
theorem sync_async_divergence_counterexample :
    mresIsTimeout (syncMeasure zga zga Variant.GasLow zeroCal 0 [0] frames5).2 =
      true ∧
    mresIsTimeout (asyncMeasure zga zga Variant.GasLow zeroCal 0 [0] frames5).2 =
      false := by
  refine ⟨rfl, ?_⟩
  have hfr : fromRaw zga zga Variant.GasLow zeroCal zeroFrame =
      some ⟨(calculateTemperature (temperatureAdc zeroFrame) zeroCal).1,
        calculateHumidity (humidityAdc zeroFrame) zeroCal
          (calculateTemperature (temperatureAdc zeroFrame) zeroCal).2,
        calculatePressure (pressureAdc zeroFrame) zeroCal
          (calculateTemperature (temperatureAdc zeroFrame) zeroCal).2,
        none⟩ := by
    unfold fromRaw
    rw [if_neg (by decide), if_neg (by decide)]
  have ha : (asyncMeasure zga zga Variant.GasLow zeroCal 0 [0] frames5).2 =
      (asyncAttempts zga zga Variant.GasLow zeroCal 0 5 frames5).2 := by
    unfold asyncMeasure
    rw [show setMode SMode.Forced [0] =
      ([Ev.readCtrl 0, Ev.writeCtrl 1], SMRes.ok []) from rfl]
  rw [ha]
  rw [show (5 : Nat) = 4 + 1 from rfl,
    show frames5 = zeroFrame :: List.replicate 4 zeroFrame from rfl]
  simp only [asyncAttempts, hfr]
  rfl

/-- C4 amended: after a successful Forced mode transition, when the
first frame has measuring clear, new_data set, gas_valid set and
gas_measuring clear, the synchronous and asynchronous measures return
the same result (same MeasurementData including gas_resistance, same
ambient-temperature update) and perform the same register transactions,
except that the synchronous initial delay is delay_period / 1000
microseconds where the asynchronous one is delay_period; on frames
outside this agreement zone the two drivers may differ (see the
divergence counterexample). -/
theorem sync_async_agree_amended (ga1 ga2 : Nat → ℚ) (v : Variant)
    (cal : CalibrationData) (dp : Nat) (ctrl : List Nat) (f : Frame)
    (fs : List Frame) (evs : List Ev) (rest : List Nat)
    (hsm : setMode SMode.Forced ctrl = (evs, SMRes.ok rest))
    (h1 : measuring f = false) (h2 : newData f = true)
    (h3 : gasValid f = true) (h4 : gasMeasuring f = false) :
    (syncMeasure ga1 ga2 v cal dp ctrl (f :: fs)).2 =
      (asyncMeasure ga1 ga2 v cal dp ctrl (f :: fs)).2 ∧
    (syncMeasure ga1 ga2 v cal dp ctrl (f :: fs)).1 =
      evs ++ [Ev.delayUs (dp / 1000), Ev.readFrame] ∧
    (asyncMeasure ga1 ga2 v cal dp ctrl (f :: fs)).1 =
      evs ++ [Ev.delayUs dp, Ev.readFrame] := by
  have hc : ¬ measuring f ∧ newData f := by simp [h1, h2]
  have hbail : ¬ (measuring f ∧ ¬ newData f) := by simp [h1]
  have hg : gasValid f ∧ ¬ gasMeasuring f := by simp [h3, h4]
  have hsync : syncAttempts ga1 ga2 v cal dp 5 (f :: fs) =
      ([Ev.readFrame],
        MRes.okd ⟨(calculateTemperature (temperatureAdc f) cal).1,
          calculateHumidity (humidityAdc f) cal (calculateTemperature (temperatureAdc f) cal).2,
          calculatePressure (pressureAdc f) cal (calculateTemperature (temperatureAdc f) cal).2,
          some (calcGasResistance ga1 ga2 v (gasAdc f) cal.range_sw_err (gasRange f))⟩
          (ratTrunc (calculateTemperature (temperatureAdc f) cal).1)) := by
    show syncAttempts ga1 ga2 v cal dp (4 + 1) (f :: fs) = _
    simp only [syncAttempts, if_pos hc]
  have hasync : asyncAttempts ga1 ga2 v cal dp 5 (f :: fs) =
      ([Ev.readFrame],
        MRes.okd ⟨(calculateTemperature (temperatureAdc f) cal).1,
          calculateHumidity (humidityAdc f) cal (calculateTemperature (temperatureAdc f) cal).2,
          calculatePressure (pressureAdc f) cal (calculateTemperature (temperatureAdc f) cal).2,
          some (calcGasResistance ga1 ga2 v (gasAdc f) cal.range_sw_err (gasRange f))⟩
          (ratTrunc (calculateTemperature (temperatureAdc f) cal).1)) := by
    have hfr : fromRaw ga1 ga2 v cal f =
        some ⟨(calculateTemperature (temperatureAdc f) cal).1,
          calculateHumidity (humidityAdc f) cal (calculateTemperature (temperatureAdc f) cal).2,
          calculatePressure (pressureAdc f) cal (calculateTemperature (temperatureAdc f) cal).2,
          some (calcGasResistance ga1 ga2 v (gasAdc f) cal.range_sw_err (gasRange f))⟩ := by
      unfold fromRaw
      rw [if_neg hbail, if_pos hg]
    show asyncAttempts ga1 ga2 v cal dp (4 + 1) (f :: fs) = _
    simp only [asyncAttempts, hfr]
  have hs : syncMeasure ga1 ga2 v cal dp ctrl (f :: fs) =
      (evs ++ Ev.delayUs (dp / 1000) :: (syncAttempts ga1 ga2 v cal dp 5 (f :: fs)).1,
        (syncAttempts ga1 ga2 v cal dp 5 (f :: fs)).2) := by
    unfold syncMeasure
    rw [hsm]
  have ha : asyncMeasure ga1 ga2 v cal dp ctrl (f :: fs) =
      (evs ++ Ev.delayUs dp :: (asyncAttempts ga1 ga2 v cal dp 5 (f :: fs)).1,
        (asyncAttempts ga1 ga2 v cal dp 5 (f :: fs)).2) := by
    unfold asyncMeasure
    rw [hsm]
  rw [hs, ha, hsync, hasync]
  exact ⟨rfl, rfl, rfl⟩

/-- Witness for sync_async_agree_amended: a run on a frame with
new_data, gas_valid set and measuring, gas_measuring clear. -/
theorem sync_async_agree_amended_witness :
    (syncMeasure zga zga Variant.GasLow zeroCal 1000 [0] [goodFrame]).2 =
      (asyncMeasure zga zga Variant.GasLow zeroCal 1000 [0] [goodFrame]).2 :=
  (sync_async_agree_amended zga zga Variant.GasLow zeroCal 1000 [0] goodFrame
    [] [Ev.readCtrl 0, Ev.writeCtrl 1] [] rfl rfl rfl rfl rfl).1

end Bme680
